import Mathlib

/-!
Verification of quilkin's token-routing filters (`src/filters/token_router.rs`)
and the xds resource envelope codec (`crates/xds/src/resource.rs`).

The Rust code is shallowly embedded: bytes are `Nat`s, byte strings are
`List Nat`, fallible operations return `Except`, and the in-place mutation of
the per-packet `ReadContext` is made explicit by returning the updated context
together with an optional error (`none` corresponds to `Ok(())`).

The cluster-map collaborator (`filter_endpoints`, `addresses_for_token`) and
the prost-generated payload schemas are not part of the verified sources;
those definitions are modelled from the specification and are marked as such.
-/

namespace Quilkin

/-- Metadata keys (`metadata::Key`) are interned strings; embedded as `String`. -/
abbrev Key := String

/-- A routing token: an opaque byte sequence. -/
abbrev Token := List Nat

/-- An endpoint address (`EndpointAddress`), opaque to the routers. -/
abbrev Address := String

/-- `metadata::Value`: dynamic metadata values; the routers only distinguish
the `Bytes` variant from every other kind. -/
inductive Value where
  | bytes (b : Token)
  | str (s : String)
  | number (n : Nat)
deriving DecidableEq

/-- An endpoint: an address plus its set of opaque byte-string tokens. -/
structure Endpoint where
  address : Address
  tokens : List Token
deriving DecidableEq

/-- One cluster of the cluster map: its endpoints (scanned by the linear
router) and its precomputed token index (queried by the hashed router). -/
structure EndpointSet where
  endpoints : List Endpoint
  index : List (Token × List Address)
deriving DecidableEq

/-- The active cluster map, as the ordered sequence of clusters its iterator
exposes. -/
abbrev ClusterMap := List EndpointSet

/-- The per-packet `ReadContext`: candidate endpoints, dynamic metadata,
packet contents, and the destination list the routers write. -/
structure ReadContext where
  endpoints : ClusterMap
  metadata : List (Key × Value)
  contents : List Nat
  destinations : List Address
deriving DecidableEq

/-- Modelled from the spec: the cluster/endpoint provider exposes iteration
over all endpoints for the linear scan; `filter_endpoints` keeps exactly the
endpoints satisfying the predicate, preserving the set's iteration order. -/
def ClusterMap.filter_endpoints (cm : ClusterMap) (p : Endpoint → Bool) : List Endpoint :=
  ((cm.map EndpointSet.endpoints).flatten).filter p

/-- Modelled from the spec: the hashed router's per-cluster query is an
exact-match lookup from token to destination address list in the cluster's
precomputed token index; the matched addresses are appended to the
caller-supplied accumulator. -/
def EndpointSet.addresses_for_token (es : EndpointSet) (tok : Token)
    (destinations : List Address) : List Address :=
  destinations ++ ((es.index.lookup tok).getD [])

/-- Modelled from the spec: the metadata key populated by the companion
capture filter (`capture::CAPTURED_BYTES`; its text lives in the capture
filter, outside the verified sources). -/
def CAPTURED_BYTES : Key := "quilkin.dev/capture"

/-- Default value for `Config.metadata_key`. -/
def default_metadata_key : Key := CAPTURED_BYTES

/-- The router configuration: the metadata key under which the per-packet
token is expected. -/
structure Config where
  metadata_key : Key
deriving DecidableEq

/-- `Default for Config`. -/
def Config.default : Config :=
  { metadata_key := default_metadata_key }

/-- Routing errors. The source renders the token of `NoEndpointMatch` as
base64 text for diagnostics; base64 encoding is injective, so the raw bytes
are carried here instead. -/
inductive Error where
  | NoTokenFound (key : Key)
  | InvalidType (key : Key) (value : Value)
  | NoEndpointMatch (key : Key) (token : Token)
deriving DecidableEq

/-- `TokenRouter::sync_read`: the linear token router. Returns the context
after the call (the Rust code mutates it in place) and `none` for `Ok(())`
or `some e` for `Err(e)`. -/
def TokenRouter.sync_read (config : Config) (ctx : ReadContext) :
    ReadContext × Option Error :=
  match ctx.metadata.lookup config.metadata_key with
  | some (Value.bytes token) =>
      let destinations :=
        (ctx.endpoints.filter_endpoints fun endpoint =>
          endpoint.tokens.contains token).map Endpoint.address
      let ctx := { ctx with destinations := destinations }
      if ctx.destinations.isEmpty then
        (ctx, some (Error.NoEndpointMatch config.metadata_key token))
      else
        (ctx, none)
  | some value => (ctx, some (Error.InvalidType config.metadata_key value))
  | none => (ctx, some (Error.NoTokenFound config.metadata_key))

/-- The cluster loop of `HashedTokenRouter::sync_read`: query each cluster's
token index in turn, appending into `destinations`, and break as soon as
`destinations` is non-empty. -/
def HashedTokenRouter.scan (tok : Token) : ClusterMap → List Address → List Address
  | [], destinations => destinations
  | es :: rest, destinations =>
      let destinations := es.addresses_for_token tok destinations
      if destinations.isEmpty then HashedTokenRouter.scan tok rest destinations
      else destinations

/-- `HashedTokenRouter::sync_read`: the indexed token router. -/
def HashedTokenRouter.sync_read (config : Config) (ctx : ReadContext) :
    ReadContext × Option Error :=
  match ctx.metadata.lookup config.metadata_key with
  | some (Value.bytes token) =>
      let destinations := HashedTokenRouter.scan token ctx.endpoints []
      let ctx := { ctx with destinations := destinations }
      if ctx.destinations.isEmpty then
        (ctx, some (Error.NoEndpointMatch config.metadata_key token))
      else
        (ctx, none)
  | some value => (ctx, some (Error.InvalidType config.metadata_key value))
  | none => (ctx, some (Error.NoTokenFound config.metadata_key))

/-- `TokenRouter::try_from_config`: a missing configuration falls back to the
default. The router's whole state is its configuration. -/
def TokenRouter.try_from_config (config : Option Config) : Config :=
  config.getD Config.default

/-- `HashedTokenRouter::try_from_config`. -/
def HashedTokenRouter.try_from_config (config : Option Config) : Config :=
  config.getD Config.default

/-- The wire-schema form of the configuration
(`proto::TokenRouter { metadata_key: Option<String> }`). -/
structure proto.TokenRouter where
  metadata_key : Option String
deriving DecidableEq

/-- `metadata::Key::new`. -/
def Key.new (s : String) : Key := s

/-- `From<Config> for proto::TokenRouter`. -/
def Config.to_proto (config : Config) : proto.TokenRouter :=
  { metadata_key := some config.metadata_key }

/-- `ConvertProtoConfigError`. -/
structure ConvertProtoConfigError where
  message : String
deriving DecidableEq

/-- `TryFrom<proto::TokenRouter> for Config`: an absent `metadata_key`
decodes to the default key; this conversion never fails. -/
def Config.try_from (p : proto.TokenRouter) : Except ConvertProtoConfigError Config :=
  Except.ok { metadata_key := (p.metadata_key.map Key.new).getD default_metadata_key }

/-! ## xds resource envelope codec (`crates/xds/src/resource.rs`) -/

/-- `CLUSTER_TYPE`. -/
def CLUSTER_TYPE : String := "type.googleapis.com/quilkin.config.v1alpha1.Cluster"

/-- `LISTENER_TYPE`. -/
def LISTENER_TYPE : String := "type.googleapis.com/envoy.config.listener.v3.Listener"

/-- `DATACENTER_TYPE`. -/
def DATACENTER_TYPE : String := "type.googleapis.com/quilkin.config.v1alpha1.Datacenter"

/-- `FILTER_CHAIN_TYPE`. -/
def FILTER_CHAIN_TYPE : String := "type.googleapis.com/quilkin.config.v1alpha1.FilterChain"

/-- Modelled from the spec: the Cluster payload schema carries an optional
locality descriptor (the prost-generated `proto::Cluster` is outside the
verified sources); the descriptor is kept opaque as its display text. -/
structure proto.Cluster where
  locality : Option String
deriving DecidableEq

/-- Modelled from the spec: the Listener payload carries a name field
directly (`envoy::config::listener::v3::Listener`). -/
structure Listener where
  name : String
deriving DecidableEq

/-- Modelled from the spec: the FilterChain payload carries an ordered list
of filter configurations, each kept opaque as text. -/
structure proto.FilterChain where
  filters : List String
deriving DecidableEq

/-- Modelled from the spec: the Datacenter payload carries an ICAO airport
code and a host address field that starts empty. -/
structure proto.Datacenter where
  icao_code : String
  host : String
deriving DecidableEq

/-- `Resource`: the tagged union of the four configuration payloads. -/
inductive Resource where
  | Cluster (cluster : proto.Cluster)
  | Datacenter (dc : proto.Datacenter)
  | Listener (listener : Listener)
  | FilterChain (fc : proto.FilterChain)
deriving DecidableEq

/-- `Resource::name`: display-name derivation. -/
def Resource.name : Resource → String
  | .Cluster cluster => cluster.locality.getD ""
  | .Listener listener => listener.name
  | .FilterChain _ => ""
  | .Datacenter dc => dc.icao_code

/-- `ResourceType`: the closed enumeration of resource kinds. -/
inductive ResourceType where
  | Cluster
  | Listener
  | FilterChain
  | Datacenter
deriving DecidableEq

/-- `ResourceType::VARIANTS`: the fixed iteration order over all kinds. -/
def ResourceType.VARIANTS : List ResourceType :=
  [.Cluster, .Listener, .FilterChain, .Datacenter]

/-- `ResourceType::type_url`. -/
def ResourceType.type_url : ResourceType → String
  | .Cluster => CLUSTER_TYPE
  | .Listener => LISTENER_TYPE
  | .Datacenter => DATACENTER_TYPE
  | .FilterChain => FILTER_CHAIN_TYPE

/-- `Resource::resource_type`. -/
def Resource.resource_type : Resource → ResourceType
  | .Cluster _ => .Cluster
  | .Listener _ => .Listener
  | .FilterChain _ => .FilterChain
  | .Datacenter _ => .Datacenter

/-- An IP address: four IPv4 octets or eight IPv6 16-bit segments. -/
inductive IpAddr where
  | v4 (a b c d : Nat)
  | v6 (s0 s1 s2 s3 s4 s5 s6 s7 : Nat)
deriving DecidableEq

/-- `IpAddr::to_canonical` (std): an IPv4-mapped IPv6 address
(`::ffff:a.b.c.d`) becomes the plain IPv4 address; every other address is
returned unchanged. -/
def IpAddr.to_canonical : IpAddr → IpAddr
  | .v4 a b c d => .v4 a b c d
  | .v6 s0 s1 s2 s3 s4 s5 s6 s7 =>
      if s0 = 0 ∧ s1 = 0 ∧ s2 = 0 ∧ s3 = 0 ∧ s4 = 0 ∧ s5 = 65535 then
        .v4 (s6 / 256) (s6 % 256) (s7 / 256) (s7 % 256)
      else
        .v6 s0 s1 s2 s3 s4 s5 s6 s7

/-- Modelled from the spec: the canonical textual representation of an IP
address. IPv4 is dotted decimal; IPv6 is written as its hex groups (the
platform formatter's zero-run compression is abstracted away — no claim
depends on the exact IPv6 text). -/
def IpAddr.to_string : IpAddr → String
  | .v4 a b c d =>
      toString a ++ "." ++ toString b ++ "." ++ toString c ++ "." ++ toString d
  | .v6 s0 s1 s2 s3 s4 s5 s6 s7 =>
      String.intercalate ":"
        (([s0, s1, s2, s3, s4, s5, s6, s7]).map fun s => (Nat.toDigits 16 s).asString)

/-- A socket address: IP plus port. -/
structure SocketAddr where
  ip : IpAddr
  port : Nat
deriving DecidableEq

/-- `Resource::add_host_to_datacenter`: stamps the sender's observed IP, in
canonical text form, into a Datacenter's host field; every other variant is
left unchanged. -/
def Resource.add_host_to_datacenter (r : Resource) (addr : SocketAddr) : Resource :=
  match r with
  | .Datacenter dc => .Datacenter { dc with host := addr.ip.to_canonical.to_string }
  | r => r

/-- `prost_types::Any`: the wire envelope `(type identifier, payload bytes)`. -/
structure Any where
  type_url : String
  value : List Nat
deriving DecidableEq

/-- Modelled from the spec: strings serialize self-describingly as a length
followed by the code units. -/
def encodeString (s : String) : List Nat :=
  s.data.length :: s.data.map Char.toNat

/-- Modelled from the spec: inverse of `encodeString`, returning the
remaining input. -/
def decodeString : List Nat → Option (String × List Nat)
  | [] => none
  | len :: rest =>
      if len ≤ rest.length then
        some (String.mk ((rest.take len).map Char.ofNat), rest.drop len)
      else none

/-- Modelled from the spec: optional strings serialize with a presence tag. -/
def encodeOptionString : Option String → List Nat
  | none => [0]
  | some s => 1 :: encodeString s

/-- Modelled from the spec: inverse of `encodeOptionString`. -/
def decodeOptionString : List Nat → Option (Option String × List Nat)
  | 0 :: rest => some (none, rest)
  | 1 :: rest => (decodeString rest).map fun p => (some p.1, p.2)
  | _ => none

/-- Modelled from the spec: string lists serialize as a count followed by the
serialized elements. -/
def encodeStrings (l : List String) : List Nat :=
  l.length :: (l.map encodeString).flatten

/-- Modelled from the spec: decode `n` consecutive serialized strings. -/
def decodeStringsAux : Nat → List Nat → Option (List String × List Nat)
  | 0, rest => some ([], rest)
  | n + 1, rest => do
      let p ← decodeString rest
      let q ← decodeStringsAux n p.2
      pure (p.1 :: q.1, q.2)

/-- Modelled from the spec: inverse of `encodeStrings`. -/
def decodeStrings : List Nat → Option (List String × List Nat)
  | [] => none
  | n :: rest => decodeStringsAux n rest

/-- Modelled from the spec: `prost::Message::encode` for the Cluster schema. -/
def proto.Cluster.encode (m : proto.Cluster) : List Nat :=
  encodeOptionString m.locality

/-- Modelled from the spec: `prost::Message::decode` for the Cluster schema. -/
def proto.Cluster.decode (b : List Nat) : Option proto.Cluster :=
  match decodeOptionString b with
  | some (loc, []) => some { locality := loc }
  | _ => none

/-- Modelled from the spec: encode for the Listener schema. -/
def Listener.encode (m : Listener) : List Nat :=
  encodeString m.name

/-- Modelled from the spec: decode for the Listener schema. -/
def Listener.decode (b : List Nat) : Option Listener :=
  match decodeString b with
  | some (n, []) => some { name := n }
  | _ => none

/-- Modelled from the spec: encode for the FilterChain schema. -/
def proto.FilterChain.encode (m : proto.FilterChain) : List Nat :=
  encodeStrings m.filters

/-- Modelled from the spec: decode for the FilterChain schema. -/
def proto.FilterChain.decode (b : List Nat) : Option proto.FilterChain :=
  match decodeStrings b with
  | some (fs, []) => some { filters := fs }
  | _ => none

/-- Modelled from the spec: encode for the Datacenter schema. -/
def proto.Datacenter.encode (m : proto.Datacenter) : List Nat :=
  encodeString m.icao_code ++ encodeString m.host

/-- Modelled from the spec: decode for the Datacenter schema. -/
def proto.Datacenter.decode (b : List Nat) : Option proto.Datacenter :=
  match decodeString b with
  | some (code, rest) =>
      match decodeString rest with
      | some (h, []) => some { icao_code := code, host := h }
      | _ => none
  | _ => none

/-- The serialization capability `prost::Message` that
`ResourceType::encode_to_any` is generic over. -/
class Message (α : Type) where
  encode : α → List Nat

instance messageProtoCluster : Message proto.Cluster := ⟨proto.Cluster.encode⟩

instance messageListener : Message Listener := ⟨Listener.encode⟩

instance messageProtoFilterChain : Message proto.FilterChain := ⟨proto.FilterChain.encode⟩

instance messageProtoDatacenter : Message proto.Datacenter := ⟨proto.Datacenter.encode⟩

/-- `ResourceType::encode_to_any`: serializes the message into an envelope
carrying this type's canonical identifier. (The Rust signature returns
`Result`, but with a pre-sized growable buffer the encode cannot fail.) -/
def ResourceType.encode_to_any {α : Type} [Message α] (t : ResourceType) (message : α) : Any :=
  { type_url := t.type_url, value := Message.encode message }

/-- Errors of envelope decoding: a schema decode error or an unknown
resource type carrying the offending identifier. -/
inductive ResourceError where
  | DecodeError
  | UnknownResourceType (url : String)
deriving DecidableEq

/-- `Resource::from_any`: match the envelope's identifier against the four
registered identifiers and deserialize with that variant's schema. -/
def Resource.from_any (any : Any) : Except ResourceError Resource :=
  if any.type_url = CLUSTER_TYPE then
    match proto.Cluster.decode any.value with
    | some m => Except.ok (Resource.Cluster m)
    | none => Except.error ResourceError.DecodeError
  else if any.type_url = LISTENER_TYPE then
    match Listener.decode any.value with
    | some m => Except.ok (Resource.Listener m)
    | none => Except.error ResourceError.DecodeError
  else if any.type_url = DATACENTER_TYPE then
    match proto.Datacenter.decode any.value with
    | some m => Except.ok (Resource.Datacenter m)
    | none => Except.error ResourceError.DecodeError
  else if any.type_url = FILTER_CHAIN_TYPE then
    match proto.FilterChain.decode any.value with
    | some m => Except.ok (Resource.FilterChain m)
    | none => Except.error ResourceError.DecodeError
  else
    Except.error (ResourceError.UnknownResourceType any.type_url)

/-- `TryFrom<prost_types::Any> for Resource`: the generic conversion entry
point; its body duplicates `Resource::from_any` verbatim in the source. -/
def Resource.try_from (any : Any) : Except ResourceError Resource :=
  if any.type_url = CLUSTER_TYPE then
    match proto.Cluster.decode any.value with
    | some m => Except.ok (Resource.Cluster m)
    | none => Except.error ResourceError.DecodeError
  else if any.type_url = LISTENER_TYPE then
    match Listener.decode any.value with
    | some m => Except.ok (Resource.Listener m)
    | none => Except.error ResourceError.DecodeError
  else if any.type_url = DATACENTER_TYPE then
    match proto.Datacenter.decode any.value with
    | some m => Except.ok (Resource.Datacenter m)
    | none => Except.error ResourceError.DecodeError
  else if any.type_url = FILTER_CHAIN_TYPE then
    match proto.FilterChain.decode any.value with
    | some m => Except.ok (Resource.FilterChain m)
    | none => Except.error ResourceError.DecodeError
  else
    Except.error (ResourceError.UnknownResourceType any.type_url)

/-- `UnknownResourceType`: the error carrying the unrecognized identifier. -/
structure UnknownResourceType where
  url : String
deriving DecidableEq

/-- `TryFrom<&str> for ResourceType`: exact string matching against the four
registered identifiers; anything else is rejected. -/
def ResourceType.try_from (url : String) : Except UnknownResourceType ResourceType :=
  if url = CLUSTER_TYPE then Except.ok ResourceType.Cluster
  else if url = LISTENER_TYPE then Except.ok ResourceType.Listener
  else if url = FILTER_CHAIN_TYPE then Except.ok ResourceType.FilterChain
  else if url = DATACENTER_TYPE then Except.ok ResourceType.Datacenter
  else Except.error { url := url }

/-- The envelope of a resource: its payload serialized under its own
resource type via `encode_to_any` (per variant, since the Rust function is
generic over the message type). -/
def Resource.to_any : Resource → Any
  | .Cluster c => ResourceType.Cluster.encode_to_any c
  | .Listener l => ResourceType.Listener.encode_to_any l
  | .FilterChain fc => ResourceType.FilterChain.encode_to_any fc
  | .Datacenter dc => ResourceType.Datacenter.encode_to_any dc

/-! ## Helper lemmas -/

theorem char_ofNat_toNat (c : Char) : Char.ofNat c.toNat = c := by
  have hv : c.toNat.isValidChar := by
    have := c.valid
    simpa [Char.toNat, UInt32.isValidChar, Nat.isValidChar] using this
  simp only [Char.ofNat, hv, dite_true]
  apply Char.eq_of_val_eq
  simp [Char.ofNatAux, Char.toNat]
  apply UInt32.eq_of_toBitVec_eq
  simp [BitVec.ofNatLt]
  apply BitVec.eq_of_toNat_eq
  rfl

theorem decodeString_encode (s : String) (rest : List Nat) :
    decodeString (encodeString s ++ rest) = some (s, rest) := by
  cases s with
  | mk data =>
    have hlen : (data.map Char.toNat).length = data.length := by simp
    have htake : (data.map Char.toNat ++ rest).take data.length = data.map Char.toNat :=
      List.take_left' hlen
    have hdrop : (data.map Char.toNat ++ rest).drop data.length = rest :=
      List.drop_left' hlen
    have hmap : (data.map Char.toNat).map Char.ofNat = data := by
      rw [List.map_map]
      have hco : Char.ofNat ∘ Char.toNat = id := funext char_ofNat_toNat
      rw [hco, List.map_id]
    simp only [encodeString, List.cons_append, decodeString]
    rw [if_pos (by simp), htake, hdrop, hmap]

theorem decodeOptionString_encode (o : Option String) (rest : List Nat) :
    decodeOptionString (encodeOptionString o ++ rest) = some (o, rest) := by
  cases o with
  | none => simp [encodeOptionString, decodeOptionString]
  | some s => simp [encodeOptionString, decodeOptionString, decodeString_encode]

theorem decodeStringsAux_encode (l : List String) (rest : List Nat) :
    decodeStringsAux l.length ((l.map encodeString).flatten ++ rest) = some (l, rest) := by
  induction l generalizing rest with
  | nil => simp [decodeStringsAux]
  | cons s t ih =>
      simp only [List.map_cons, List.flatten_cons, List.length_cons, List.append_assoc]
      simp [decodeStringsAux, decodeString_encode, ih]

theorem decodeStrings_encode (l : List String) (rest : List Nat) :
    decodeStrings (encodeStrings l ++ rest) = some (l, rest) := by
  simp only [encodeStrings, List.cons_append, decodeStrings]
  exact decodeStringsAux_encode l rest

theorem cluster_decode_encode (m : proto.Cluster) :
    proto.Cluster.decode m.encode = some m := by
  cases m with
  | mk locality =>
      have h := decodeOptionString_encode locality []
      rw [List.append_nil] at h
      simp [proto.Cluster.encode, proto.Cluster.decode, h]

theorem listener_decode_encode (m : Listener) :
    Listener.decode m.encode = some m := by
  cases m with
  | mk n =>
      have h := decodeString_encode (String.mk n.data) []
      rw [List.append_nil] at h
      simp [Listener.encode, Listener.decode, h]

theorem filterChain_decode_encode (m : proto.FilterChain) :
    proto.FilterChain.decode m.encode = some m := by
  cases m with
  | mk fs =>
      have h := decodeStrings_encode fs []
      rw [List.append_nil] at h
      simp [proto.FilterChain.encode, proto.FilterChain.decode, h]

theorem datacenter_decode_encode (m : proto.Datacenter) :
    proto.Datacenter.decode m.encode = some m := by
  cases m with
  | mk code h =>
      have h1 := decodeString_encode code (encodeString h)
      have h2 := decodeString_encode h []
      rw [List.append_nil] at h2
      simp [proto.Datacenter.encode, proto.Datacenter.decode, h1, h2]

/-- The reference collection of matching endpoint addresses, written as an
independent recursion over the endpoint sequence: keep, in order, the
address of every endpoint whose token set contains the token. -/
def collectAddresses (token : Token) : List Endpoint → List Address
  | [] => []
  | endpoint :: rest =>
      if endpoint.tokens.contains token then
        endpoint.address :: collectAddresses token rest
      else
        collectAddresses token rest

theorem collectAddresses_eq (token : Token) (eps : List Endpoint) :
    (eps.filter fun endpoint => endpoint.tokens.contains token).map Endpoint.address =
      collectAddresses token eps := by
  induction eps with
  | nil => rfl
  | cons e t ih =>
      rw [List.filter_cons]
      by_cases h : e.tokens.contains token = true
      · rw [if_pos h, List.map_cons, ih]
        simp only [collectAddresses, if_pos h]
      · rw [if_neg h, ih]
        simp only [collectAddresses, if_neg h]

theorem scan_all_empty (tok : Token) (cm : ClusterMap)
    (h : ∀ es ∈ cm, (es.index.lookup tok).getD [] = []) :
    HashedTokenRouter.scan tok cm [] = [] := by
  induction cm with
  | nil => rfl
  | cons e t ih =>
      have he := h e (by simp)
      simp only [HashedTokenRouter.scan, EndpointSet.addresses_for_token, he,
        List.nil_append, List.isEmpty_nil, if_true]
      exact ih fun es hes => h es (by simp [hes])

theorem scan_first_match (tok : Token) (pre : ClusterMap) (es : EndpointSet)
    (post : ClusterMap)
    (hpre : ∀ e ∈ pre, (e.index.lookup tok).getD [] = [])
    (hes : (es.index.lookup tok).getD [] ≠ []) :
    HashedTokenRouter.scan tok (pre ++ es :: post) [] =
      (es.index.lookup tok).getD [] := by
  induction pre with
  | nil =>
      simp only [List.nil_append, HashedTokenRouter.scan,
        EndpointSet.addresses_for_token, List.nil_append]
      rw [if_neg (by simpa using hes)]
  | cons e t ih =>
      have he := hpre e (by simp)
      simp only [List.cons_append, HashedTokenRouter.scan,
        EndpointSet.addresses_for_token, he, List.append_nil, List.nil_append,
        List.isEmpty_nil, if_true]
      exact ih fun e' he' => hpre e' (by simp [he'])

/-! ## Claim theorems -/

theorem tokenRouter_read_none (config : Config) (ctx : ReadContext)
    (h : ctx.metadata.lookup config.metadata_key = none) :
    TokenRouter.sync_read config ctx =
      (ctx, some (Error.NoTokenFound config.metadata_key)) := by
  simp [TokenRouter.sync_read, h]

theorem tokenRouter_read_not_bytes (config : Config) (ctx : ReadContext) (value : Value)
    (hv : ctx.metadata.lookup config.metadata_key = some value)
    (hnb : ∀ b, value ≠ Value.bytes b) :
    TokenRouter.sync_read config ctx =
      (ctx, some (Error.InvalidType config.metadata_key value)) := by
  cases value with
  | bytes b => exact absurd rfl (hnb b)
  | str s => simp [TokenRouter.sync_read, hv]
  | number n => simp [TokenRouter.sync_read, hv]

theorem tokenRouter_read_bytes_empty (config : Config) (ctx : ReadContext) (token : Token)
    (h : ctx.metadata.lookup config.metadata_key = some (Value.bytes token))
    (hd : collectAddresses token ((ctx.endpoints.map EndpointSet.endpoints).flatten) = []) :
    TokenRouter.sync_read config ctx =
      ({ ctx with destinations := [] },
        some (Error.NoEndpointMatch config.metadata_key token)) := by
  simp only [TokenRouter.sync_read, h, ClusterMap.filter_endpoints,
    collectAddresses_eq, hd, List.isEmpty_nil, if_true]

theorem tokenRouter_read_bytes_nonempty (config : Config) (ctx : ReadContext) (token : Token)
    (h : ctx.metadata.lookup config.metadata_key = some (Value.bytes token))
    (hd : collectAddresses token ((ctx.endpoints.map EndpointSet.endpoints).flatten) ≠ []) :
    TokenRouter.sync_read config ctx =
      ({ ctx with destinations :=
          collectAddresses token ((ctx.endpoints.map EndpointSet.endpoints).flatten) },
        none) := by
  simp only [TokenRouter.sync_read, h, ClusterMap.filter_endpoints, collectAddresses_eq]
  rw [if_neg (by simpa [List.isEmpty_iff] using hd)]

theorem hashedRouter_read_none (config : Config) (ctx : ReadContext)
    (h : ctx.metadata.lookup config.metadata_key = none) :
    HashedTokenRouter.sync_read config ctx =
      (ctx, some (Error.NoTokenFound config.metadata_key)) := by
  simp [HashedTokenRouter.sync_read, h]

theorem hashedRouter_read_not_bytes (config : Config) (ctx : ReadContext) (value : Value)
    (hv : ctx.metadata.lookup config.metadata_key = some value)
    (hnb : ∀ b, value ≠ Value.bytes b) :
    HashedTokenRouter.sync_read config ctx =
      (ctx, some (Error.InvalidType config.metadata_key value)) := by
  cases value with
  | bytes b => exact absurd rfl (hnb b)
  | str s => simp [HashedTokenRouter.sync_read, hv]
  | number n => simp [HashedTokenRouter.sync_read, hv]

theorem hashedRouter_read_bytes_empty (config : Config) (ctx : ReadContext) (token : Token)
    (h : ctx.metadata.lookup config.metadata_key = some (Value.bytes token))
    (hd : HashedTokenRouter.scan token ctx.endpoints [] = []) :
    HashedTokenRouter.sync_read config ctx =
      ({ ctx with destinations := [] },
        some (Error.NoEndpointMatch config.metadata_key token)) := by
  simp only [HashedTokenRouter.sync_read, h, hd, List.isEmpty_nil, if_true]

theorem hashedRouter_read_bytes_nonempty (config : Config) (ctx : ReadContext) (token : Token)
    (h : ctx.metadata.lookup config.metadata_key = some (Value.bytes token))
    (hd : HashedTokenRouter.scan token ctx.endpoints [] ≠ []) :
    HashedTokenRouter.sync_read config ctx =
      ({ ctx with destinations := HashedTokenRouter.scan token ctx.endpoints [] },
        none) := by
  simp only [HashedTokenRouter.sync_read, h]
  rw [if_neg (by simpa [List.isEmpty_iff] using hd)]

/-- C1: `TokenRouter::sync_read` follows the six specified steps: a missing
metadata entry fails with `NoTokenFound(key)`; a non-byte entry fails with
`InvalidType(key, value)`; a byte token collects, in iteration order, the
addresses of exactly the endpoints whose token set contains the token,
failing with `NoEndpointMatch` when that collection is empty and otherwise
writing it into `context.destinations` and succeeding. -/
theorem tokenRouter_route_steps (config : Config) (ctx : ReadContext) :
    (ctx.metadata.lookup config.metadata_key = none →
      TokenRouter.sync_read config ctx =
        (ctx, some (Error.NoTokenFound config.metadata_key))) ∧
    (∀ value, ctx.metadata.lookup config.metadata_key = some value →
      (∀ b, value ≠ Value.bytes b) →
      TokenRouter.sync_read config ctx =
        (ctx, some (Error.InvalidType config.metadata_key value))) ∧
    (∀ token, ctx.metadata.lookup config.metadata_key = some (Value.bytes token) →
      (collectAddresses token ((ctx.endpoints.map EndpointSet.endpoints).flatten) = [] →
        TokenRouter.sync_read config ctx =
          ({ ctx with destinations := [] },
            some (Error.NoEndpointMatch config.metadata_key token))) ∧
      (collectAddresses token ((ctx.endpoints.map EndpointSet.endpoints).flatten) ≠ [] →
        TokenRouter.sync_read config ctx =
          ({ ctx with destinations :=
              collectAddresses token ((ctx.endpoints.map EndpointSet.endpoints).flatten) },
            none))) :=
  ⟨tokenRouter_read_none config ctx,
   fun value hv hnb => tokenRouter_read_not_bytes config ctx value hv hnb,
   fun token ht =>
     ⟨fun hd => tokenRouter_read_bytes_empty config ctx token ht hd,
      fun hd => tokenRouter_read_bytes_nonempty config ctx token ht hd⟩⟩

/-- Concrete context for the C1 witness: endpoints `A` and `C` (not `B`)
hold token `[1]`, stored under metadata key `k`. -/
def ctxLinear : ReadContext :=
  { endpoints :=
      [{ endpoints :=
          [{ address := "A", tokens := [[1]] },
           { address := "B", tokens := [[2]] },
           { address := "C", tokens := [[1], [3]] }],
         index := [] }],
    metadata := [("k", Value.bytes [1])],
    contents := [104, 105],
    destinations := [] }

/-- C1 witness: routing `ctxLinear` with token `[1]` succeeds with
destinations `[A, C]` in original order. -/
theorem tokenRouter_route_steps_witness :
    TokenRouter.sync_read { metadata_key := "k" } ctxLinear =
      ({ ctxLinear with destinations := ["A", "C"] }, none) := by
  have h := ((tokenRouter_route_steps { metadata_key := "k" } ctxLinear).2.2 [1]
    (by decide)).2 (by decide)
  rw [h]
  decide

/-- C2: `HashedTokenRouter::sync_read` handles steps 1–3 exactly like the
linear router; with a byte token it scans clusters in order, takes the first
cluster whose token index yields a non-empty address list (later clusters
never influence the result), and fails with `NoEndpointMatch` when every
cluster's index yields nothing. -/
theorem hashedTokenRouter_route_steps (config : Config) (ctx : ReadContext) :
    (ctx.metadata.lookup config.metadata_key = none →
      HashedTokenRouter.sync_read config ctx =
        (ctx, some (Error.NoTokenFound config.metadata_key))) ∧
    (∀ value, ctx.metadata.lookup config.metadata_key = some value →
      (∀ b, value ≠ Value.bytes b) →
      HashedTokenRouter.sync_read config ctx =
        (ctx, some (Error.InvalidType config.metadata_key value))) ∧
    (∀ token, ctx.metadata.lookup config.metadata_key = some (Value.bytes token) →
      (∀ pre es post, ctx.endpoints = pre ++ es :: post →
        (∀ e ∈ pre, (e.index.lookup token).getD [] = []) →
        (es.index.lookup token).getD [] ≠ [] →
        HashedTokenRouter.sync_read config ctx =
          ({ ctx with destinations := (es.index.lookup token).getD [] }, none)) ∧
      ((∀ e ∈ ctx.endpoints, (e.index.lookup token).getD [] = []) →
        HashedTokenRouter.sync_read config ctx =
          ({ ctx with destinations := [] },
            some (Error.NoEndpointMatch config.metadata_key token)))) := by
  refine ⟨hashedRouter_read_none config ctx,
    fun value hv hnb => hashedRouter_read_not_bytes config ctx value hv hnb,
    fun token ht => ⟨?_, ?_⟩⟩
  · intro pre es post hsplit hpre hes
    have hscan : HashedTokenRouter.scan token ctx.endpoints [] =
        (es.index.lookup token).getD [] := by
      rw [hsplit]
      exact scan_first_match token pre es post hpre hes
    have h := hashedRouter_read_bytes_nonempty config ctx token ht (by rw [hscan]; exact hes)
    rw [hscan] at h
    exact h
  · intro hall
    exact hashedRouter_read_bytes_empty config ctx token ht
      (scan_all_empty token ctx.endpoints hall)

/-- Concrete context for the C2 witness: the second cluster's index maps
token `[1]` to `[X, Y]`; the third cluster also holds `[1]` but is never
consulted. -/
def ctxHashed : ReadContext :=
  { endpoints :=
      [{ endpoints := [], index := [([9], ["Q"])] },
       { endpoints := [], index := [([1], ["X", "Y"])] },
       { endpoints := [], index := [([1], ["Z"])] }],
    metadata := [("k", Value.bytes [1])],
    contents := [],
    destinations := [] }

/-- C2 witness: hashed routing of `ctxHashed` with token `[1]` returns the
second cluster's mapped list `[X, Y]`, ignoring the later cluster. -/
theorem hashedTokenRouter_route_steps_witness :
    HashedTokenRouter.sync_read { metadata_key := "k" } ctxHashed =
      ({ ctxHashed with destinations := ["X", "Y"] }, none) := by
  have h := ((hashedTokenRouter_route_steps { metadata_key := "k" } ctxHashed).2.2 [1]
      (by decide)).1
    [{ endpoints := [], index := [([9], ["Q"])] }]
    { endpoints := [], index := [([1], ["X", "Y"])] }
    [{ endpoints := [], index := [([1], ["Z"])] }]
    (by decide) (by decide) (by decide)
  rw [h]
  decide

theorem tokenRouter_success_nonempty (config : Config) (ctx : ReadContext)
    (h : (TokenRouter.sync_read config ctx).2 = none) :
    (TokenRouter.sync_read config ctx).1.destinations ≠ [] := by
  cases hl : ctx.metadata.lookup config.metadata_key with
  | none =>
      rw [tokenRouter_read_none config ctx hl] at h
      simp at h
  | some v =>
      cases v with
      | str s =>
          rw [tokenRouter_read_not_bytes config ctx (Value.str s) hl (by intro b; simp)] at h
          simp at h
      | number n =>
          rw [tokenRouter_read_not_bytes config ctx (Value.number n) hl (by intro b; simp)] at h
          simp at h
      | bytes token =>
          by_cases hd :
            collectAddresses token ((ctx.endpoints.map EndpointSet.endpoints).flatten) = []
          · rw [tokenRouter_read_bytes_empty config ctx token hl hd] at h
            simp at h
          · rw [tokenRouter_read_bytes_nonempty config ctx token hl hd]
            simpa using hd

theorem hashedRouter_success_nonempty (config : Config) (ctx : ReadContext)
    (h : (HashedTokenRouter.sync_read config ctx).2 = none) :
    (HashedTokenRouter.sync_read config ctx).1.destinations ≠ [] := by
  cases hl : ctx.metadata.lookup config.metadata_key with
  | none =>
      rw [hashedRouter_read_none config ctx hl] at h
      simp at h
  | some v =>
      cases v with
      | str s =>
          rw [hashedRouter_read_not_bytes config ctx (Value.str s) hl (by intro b; simp)] at h
          simp at h
      | number n =>
          rw [hashedRouter_read_not_bytes config ctx (Value.number n) hl (by intro b; simp)] at h
          simp at h
      | bytes token =>
          by_cases hd : HashedTokenRouter.scan token ctx.endpoints [] = []
          · rw [hashedRouter_read_bytes_empty config ctx token hl hd] at h
            simp at h
          · rw [hashedRouter_read_bytes_nonempty config ctx token hl hd]
            simpa using hd

/-- C3: neither router ever returns success with an empty destination list:
whenever `sync_read` reports no error, the resulting context's destinations
are non-empty. -/
theorem routers_never_succeed_empty (config : Config) (ctx : ReadContext) :
    ((TokenRouter.sync_read config ctx).2 = none →
      (TokenRouter.sync_read config ctx).1.destinations ≠ []) ∧
    ((HashedTokenRouter.sync_read config ctx).2 = none →
      (HashedTokenRouter.sync_read config ctx).1.destinations ≠ []) :=
  ⟨tokenRouter_success_nonempty config ctx,
   hashedRouter_success_nonempty config ctx⟩

/-- Concrete context for the C3 witness: one endpoint holding token `[7]`
and one cluster index mapping `[7]` to its address. -/
def ctxSuccess : ReadContext :=
  { endpoints :=
      [{ endpoints := [{ address := "E", tokens := [[7]] }],
         index := [([7], ["E"])] }],
    metadata := [("k", Value.bytes [7])],
    contents := [],
    destinations := [] }

/-- C3 witness: on a successful concrete run both routers leave a non-empty
destination list. -/
theorem routers_never_succeed_empty_witness :
    (TokenRouter.sync_read { metadata_key := "k" } ctxSuccess).1.destinations ≠ [] ∧
    (HashedTokenRouter.sync_read { metadata_key := "k" } ctxSuccess).1.destinations ≠ [] :=
  ⟨(routers_never_succeed_empty { metadata_key := "k" } ctxSuccess).1 (by decide),
   (routers_never_succeed_empty { metadata_key := "k" } ctxSuccess).2 (by decide)⟩

/-- C4: for every resource, serializing its payload under its own resource
type with `encode_to_any` and decoding the envelope with `from_any` yields
the resource back, and the envelope carries the resource type's canonical
identifier. -/
theorem resource_roundtrip (r : Resource) :
    Resource.from_any r.to_any = Except.ok r ∧
    r.to_any.type_url = r.resource_type.type_url := by
  cases r with
  | Cluster c =>
      refine ⟨?_, rfl⟩
      show Resource.from_any { type_url := CLUSTER_TYPE, value := proto.Cluster.encode c } =
        Except.ok (Resource.Cluster c)
      unfold Resource.from_any
      dsimp only
      rw [if_pos rfl, cluster_decode_encode]
  | Listener l =>
      refine ⟨?_, rfl⟩
      show Resource.from_any { type_url := LISTENER_TYPE, value := Listener.encode l } =
        Except.ok (Resource.Listener l)
      unfold Resource.from_any
      dsimp only
      rw [if_neg (by decide), if_pos rfl, listener_decode_encode]
  | Datacenter dc =>
      refine ⟨?_, rfl⟩
      show Resource.from_any { type_url := DATACENTER_TYPE, value := proto.Datacenter.encode dc } =
        Except.ok (Resource.Datacenter dc)
      unfold Resource.from_any
      dsimp only
      rw [if_neg (by decide), if_neg (by decide), if_pos rfl, datacenter_decode_encode]
  | FilterChain fc =>
      refine ⟨?_, rfl⟩
      show Resource.from_any
          { type_url := FILTER_CHAIN_TYPE, value := proto.FilterChain.encode fc } =
        Except.ok (Resource.FilterChain fc)
      unfold Resource.from_any
      dsimp only
      rw [if_neg (by decide), if_neg (by decide), if_neg (by decide), if_pos rfl,
        filterChain_decode_encode]

/-- C5: any identifier not exactly equal to one of the four registered
identifiers is rejected both by the envelope decoder, with
`UnknownResourceType` carrying the offending string, and by the registry
lookup; each registered identifier maps to its own variant. -/
theorem unknown_resource_type_rejected :
    (∀ (s : String) (value : List Nat),
      s ≠ CLUSTER_TYPE → s ≠ LISTENER_TYPE → s ≠ DATACENTER_TYPE → s ≠ FILTER_CHAIN_TYPE →
      Resource.from_any { type_url := s, value := value } =
        Except.error (ResourceError.UnknownResourceType s) ∧
      ResourceType.try_from s = Except.error { url := s }) ∧
    (ResourceType.try_from CLUSTER_TYPE = Except.ok ResourceType.Cluster ∧
     ResourceType.try_from LISTENER_TYPE = Except.ok ResourceType.Listener ∧
     ResourceType.try_from FILTER_CHAIN_TYPE = Except.ok ResourceType.FilterChain ∧
     ResourceType.try_from DATACENTER_TYPE = Except.ok ResourceType.Datacenter) := by
  constructor
  · intro s value h1 h2 h3 h4
    constructor
    · unfold Resource.from_any
      dsimp only
      rw [if_neg h1, if_neg h2, if_neg h3, if_neg h4]
    · unfold ResourceType.try_from
      rw [if_neg h1, if_neg h2, if_neg h4, if_neg h3]
  · exact ⟨rfl, rfl, rfl, rfl⟩

/-- C5 witness: a concrete unregistered identifier is rejected by both
entry points with the identifier carried in the error. -/
theorem unknown_resource_type_rejected_witness :
    Resource.from_any { type_url := "quilkin.test/bogus", value := [0] } =
      Except.error (ResourceError.UnknownResourceType "quilkin.test/bogus") ∧
    ResourceType.try_from "quilkin.test/bogus" =
      Except.error { url := "quilkin.test/bogus" } :=
  unknown_resource_type_rejected.1 "quilkin.test/bogus" [0]
    (by decide) (by decide) (by decide) (by decide)

/-- C6: the explicit decode method and the generic conversion entry point
have identical semantics on every envelope. -/
theorem try_from_eq_from_any (any : Any) :
    Resource.try_from any = Resource.from_any any := rfl

/-- C7: `add_host_to_datacenter` leaves Cluster, Listener, and FilterChain
resources unchanged; on a Datacenter it sets exactly the host field to the
canonical text of the address's IP (keeping the ICAO code), and an
IPv4-mapped IPv6 address canonicalizes to the plain IPv4 form. -/
theorem add_host_to_datacenter_behavior :
    (∀ (c : proto.Cluster) (addr : SocketAddr),
      (Resource.Cluster c).add_host_to_datacenter addr = Resource.Cluster c) ∧
    (∀ (l : Listener) (addr : SocketAddr),
      (Resource.Listener l).add_host_to_datacenter addr = Resource.Listener l) ∧
    (∀ (fc : proto.FilterChain) (addr : SocketAddr),
      (Resource.FilterChain fc).add_host_to_datacenter addr = Resource.FilterChain fc) ∧
    (∀ (dc : proto.Datacenter) (addr : SocketAddr),
      (Resource.Datacenter dc).add_host_to_datacenter addr =
        Resource.Datacenter
          { icao_code := dc.icao_code, host := addr.ip.to_canonical.to_string }) ∧
    (∀ s6 s7 : Nat,
      (IpAddr.v6 0 0 0 0 0 65535 s6 s7).to_canonical =
        IpAddr.v4 (s6 / 256) (s6 % 256) (s7 / 256) (s7 % 256)) := by
  refine ⟨fun c addr => rfl, fun l addr => rfl, fun fc addr => rfl,
    fun dc addr => rfl, fun s6 s7 => ?_⟩
  simp [IpAddr.to_canonical]

/-- C8: a router constructed without configuration uses the capture filter's
default metadata key; a configured key `k` makes the routers read metadata
only at `k` (contexts agreeing at `k` and in the other fields route
identically); and the structured configuration round-trips losslessly
through its wire form, with an absent `metadata_key` decoding to the same
default configuration. -/
theorem config_default_and_roundtrip :
    (∀ config : Config, Config.try_from config.to_proto = Except.ok config) ∧
    (Config.try_from { metadata_key := none } = Except.ok Config.default) ∧
    (TokenRouter.try_from_config none = Config.default ∧
     HashedTokenRouter.try_from_config none = Config.default ∧
     Config.default.metadata_key = CAPTURED_BYTES) ∧
    (∀ (k : Key) (ctx ctx' : ReadContext),
      ctx.endpoints = ctx'.endpoints → ctx.contents = ctx'.contents →
      ctx.destinations = ctx'.destinations →
      ctx.metadata.lookup k = ctx'.metadata.lookup k →
      ((TokenRouter.sync_read { metadata_key := k } ctx).1.destinations =
          (TokenRouter.sync_read { metadata_key := k } ctx').1.destinations ∧
        (TokenRouter.sync_read { metadata_key := k } ctx).2 =
          (TokenRouter.sync_read { metadata_key := k } ctx').2) ∧
      ((HashedTokenRouter.sync_read { metadata_key := k } ctx).1.destinations =
          (HashedTokenRouter.sync_read { metadata_key := k } ctx').1.destinations ∧
        (HashedTokenRouter.sync_read { metadata_key := k } ctx).2 =
          (HashedTokenRouter.sync_read { metadata_key := k } ctx').2)) := by
  refine ⟨fun config => rfl, rfl, ⟨rfl, rfl, rfl⟩, ?_⟩
  intro k ctx ctx' hep hco hde hm
  constructor
  · cases hl : ctx.metadata.lookup k with
    | none =>
        have hl' : ctx'.metadata.lookup k = none := by rw [← hm]; exact hl
        rw [tokenRouter_read_none { metadata_key := k } ctx hl,
          tokenRouter_read_none { metadata_key := k } ctx' hl']
        exact ⟨hde, rfl⟩
    | some v =>
        have hl' : ctx'.metadata.lookup k = some v := by rw [← hm]; exact hl
        cases v with
        | str s =>
            rw [tokenRouter_read_not_bytes { metadata_key := k } ctx (Value.str s) hl
                (by intro b; simp),
              tokenRouter_read_not_bytes { metadata_key := k } ctx' (Value.str s) hl'
                (by intro b; simp)]
            exact ⟨hde, rfl⟩
        | number n =>
            rw [tokenRouter_read_not_bytes { metadata_key := k } ctx (Value.number n) hl
                (by intro b; simp),
              tokenRouter_read_not_bytes { metadata_key := k } ctx' (Value.number n) hl'
                (by intro b; simp)]
            exact ⟨hde, rfl⟩
        | bytes token =>
            by_cases hd :
              collectAddresses token ((ctx.endpoints.map EndpointSet.endpoints).flatten) = []
            · have hd' :
                  collectAddresses token ((ctx'.endpoints.map EndpointSet.endpoints).flatten)
                    = [] := by
                rw [← hep]; exact hd
              rw [tokenRouter_read_bytes_empty { metadata_key := k } ctx token hl hd,
                tokenRouter_read_bytes_empty { metadata_key := k } ctx' token hl' hd']
              exact ⟨rfl, rfl⟩
            · have hd' :
                  collectAddresses token ((ctx'.endpoints.map EndpointSet.endpoints).flatten)
                    ≠ [] := by
                rw [← hep]; exact hd
              rw [tokenRouter_read_bytes_nonempty { metadata_key := k } ctx token hl hd,
                tokenRouter_read_bytes_nonempty { metadata_key := k } ctx' token hl' hd']
              refine ⟨?_, rfl⟩
              show collectAddresses token ((ctx.endpoints.map EndpointSet.endpoints).flatten) =
                collectAddresses token ((ctx'.endpoints.map EndpointSet.endpoints).flatten)
              rw [hep]
  · cases hl : ctx.metadata.lookup k with
    | none =>
        have hl' : ctx'.metadata.lookup k = none := by rw [← hm]; exact hl
        rw [hashedRouter_read_none { metadata_key := k } ctx hl,
          hashedRouter_read_none { metadata_key := k } ctx' hl']
        exact ⟨hde, rfl⟩
    | some v =>
        have hl' : ctx'.metadata.lookup k = some v := by rw [← hm]; exact hl
        cases v with
        | str s =>
            rw [hashedRouter_read_not_bytes { metadata_key := k } ctx (Value.str s) hl
                (by intro b; simp),
              hashedRouter_read_not_bytes { metadata_key := k } ctx' (Value.str s) hl'
                (by intro b; simp)]
            exact ⟨hde, rfl⟩
        | number n =>
            rw [hashedRouter_read_not_bytes { metadata_key := k } ctx (Value.number n) hl
                (by intro b; simp),
              hashedRouter_read_not_bytes { metadata_key := k } ctx' (Value.number n) hl'
                (by intro b; simp)]
            exact ⟨hde, rfl⟩
        | bytes token =>
            by_cases hd : HashedTokenRouter.scan token ctx.endpoints [] = []
            · have hd' : HashedTokenRouter.scan token ctx'.endpoints [] = [] := by
                rw [← hep]; exact hd
              rw [hashedRouter_read_bytes_empty { metadata_key := k } ctx token hl hd,
                hashedRouter_read_bytes_empty { metadata_key := k } ctx' token hl' hd']
              exact ⟨rfl, rfl⟩
            · have hd' : HashedTokenRouter.scan token ctx'.endpoints [] ≠ [] := by
                rw [← hep]; exact hd
              rw [hashedRouter_read_bytes_nonempty { metadata_key := k } ctx token hl hd,
                hashedRouter_read_bytes_nonempty { metadata_key := k } ctx' token hl' hd']
              refine ⟨?_, rfl⟩
              show HashedTokenRouter.scan token ctx.endpoints [] =
                HashedTokenRouter.scan token ctx'.endpoints []
              rw [hep]

/-- C8 witness: the round trip at key `X`, and two concrete contexts that
agree at key `X` (one carrying an extra unrelated entry) route the same. -/
theorem config_default_and_roundtrip_witness :
    Config.try_from (Config.to_proto { metadata_key := "X" }) =
      Except.ok { metadata_key := "X" } ∧
    (TokenRouter.sync_read { metadata_key := "X" }
        { endpoints := [], metadata := [("X", Value.bytes [1]), ("other", Value.str "z")],
          contents := [], destinations := [] }).2 =
      (TokenRouter.sync_read { metadata_key := "X" }
        { endpoints := [], metadata := [("X", Value.bytes [1])],
          contents := [], destinations := [] }).2 :=
  ⟨config_default_and_roundtrip.1 { metadata_key := "X" },
   (config_default_and_roundtrip.2.2.2 "X"
      { endpoints := [], metadata := [("X", Value.bytes [1]), ("other", Value.str "z")],
        contents := [], destinations := [] }
      { endpoints := [], metadata := [("X", Value.bytes [1])],
        contents := [], destinations := [] }
      rfl rfl rfl (by decide)).1.2⟩

/-- C9: the variant-to-identifier mapping is bijective, the registry lookup
inverts `type_url` on every variant, and every successfully decoded
envelope's resource type is the one whose identifier equals the envelope's
identifier. -/
theorem resource_type_url_bijective :
    (∀ t1 t2 : ResourceType, t1.type_url = t2.type_url → t1 = t2) ∧
    (∀ t : ResourceType, ResourceType.try_from t.type_url = Except.ok t) ∧
    (∀ (any : Any) (r : Resource), Resource.from_any any = Except.ok r →
      ResourceType.try_from any.type_url = Except.ok r.resource_type) := by
  refine ⟨?_, ?_, ?_⟩
  · intro t1 t2 h
    cases t1 <;> cases t2 <;> first | rfl | exact absurd h (by decide)
  · intro t
    cases t <;> rfl
  · intro any r h
    unfold Resource.from_any at h
    by_cases h1 : any.type_url = CLUSTER_TYPE
    · rw [if_pos h1] at h
      rw [h1]
      cases hd : proto.Cluster.decode any.value with
      | none => rw [hd] at h; exact absurd h (by simp)
      | some m =>
          rw [hd] at h
          simp only [Except.ok.injEq] at h
          subst h
          rfl
    · rw [if_neg h1] at h
      by_cases h2 : any.type_url = LISTENER_TYPE
      · rw [if_pos h2] at h
        rw [h2]
        cases hd : Listener.decode any.value with
        | none => rw [hd] at h; exact absurd h (by simp)
        | some m =>
            rw [hd] at h
            simp only [Except.ok.injEq] at h
            subst h
            rfl
      · rw [if_neg h2] at h
        by_cases h3 : any.type_url = DATACENTER_TYPE
        · rw [if_pos h3] at h
          rw [h3]
          cases hd : proto.Datacenter.decode any.value with
          | none => rw [hd] at h; exact absurd h (by simp)
          | some m =>
              rw [hd] at h
              simp only [Except.ok.injEq] at h
              subst h
              rfl
        · rw [if_neg h3] at h
          by_cases h4 : any.type_url = FILTER_CHAIN_TYPE
          · rw [if_pos h4] at h
            rw [h4]
            cases hd : proto.FilterChain.decode any.value with
            | none => rw [hd] at h; exact absurd h (by simp)
            | some m =>
                rw [hd] at h
                simp only [Except.ok.injEq] at h
                subst h
                rfl
          · rw [if_neg h4] at h
            exact absurd h (by simp)

/-- C9 witness: decoding a concrete Datacenter envelope and looking its
identifier up in the registry agree on the resource type. -/
theorem resource_type_url_bijective_witness :
    ResourceType.try_from
        (Any.mk DATACENTER_TYPE
          (proto.Datacenter.encode { icao_code := "EKCH", host := "" })).type_url =
      Except.ok ResourceType.Datacenter :=
  resource_type_url_bijective.2.2
    (Any.mk DATACENTER_TYPE (proto.Datacenter.encode { icao_code := "EKCH", host := "" }))
    (Resource.Datacenter { icao_code := "EKCH", host := "" }) (by rfl)

theorem tokenRouter_frame (config : Config) (ctx : ReadContext) :
    (TokenRouter.sync_read config ctx).1.metadata = ctx.metadata ∧
    (TokenRouter.sync_read config ctx).1.contents = ctx.contents ∧
    (TokenRouter.sync_read config ctx).1.endpoints = ctx.endpoints := by
  cases hl : ctx.metadata.lookup config.metadata_key with
  | none => rw [tokenRouter_read_none config ctx hl]; exact ⟨rfl, rfl, rfl⟩
  | some v =>
      cases v with
      | str s =>
          rw [tokenRouter_read_not_bytes config ctx (Value.str s) hl (by intro b; simp)]
          exact ⟨rfl, rfl, rfl⟩
      | number n =>
          rw [tokenRouter_read_not_bytes config ctx (Value.number n) hl (by intro b; simp)]
          exact ⟨rfl, rfl, rfl⟩
      | bytes token =>
          by_cases hd :
            collectAddresses token ((ctx.endpoints.map EndpointSet.endpoints).flatten) = []
          · rw [tokenRouter_read_bytes_empty config ctx token hl hd]
            exact ⟨rfl, rfl, rfl⟩
          · rw [tokenRouter_read_bytes_nonempty config ctx token hl hd]
            exact ⟨rfl, rfl, rfl⟩

theorem hashedRouter_frame (config : Config) (ctx : ReadContext) :
    (HashedTokenRouter.sync_read config ctx).1.metadata = ctx.metadata ∧
    (HashedTokenRouter.sync_read config ctx).1.contents = ctx.contents ∧
    (HashedTokenRouter.sync_read config ctx).1.endpoints = ctx.endpoints := by
  cases hl : ctx.metadata.lookup config.metadata_key with
  | none => rw [hashedRouter_read_none config ctx hl]; exact ⟨rfl, rfl, rfl⟩
  | some v =>
      cases v with
      | str s =>
          rw [hashedRouter_read_not_bytes config ctx (Value.str s) hl (by intro b; simp)]
          exact ⟨rfl, rfl, rfl⟩
      | number n =>
          rw [hashedRouter_read_not_bytes config ctx (Value.number n) hl (by intro b; simp)]
          exact ⟨rfl, rfl, rfl⟩
      | bytes token =>
          by_cases hd : HashedTokenRouter.scan token ctx.endpoints [] = []
          · rw [hashedRouter_read_bytes_empty config ctx token hl hd]
            exact ⟨rfl, rfl, rfl⟩
          · rw [hashedRouter_read_bytes_nonempty config ctx token hl hd]
            exact ⟨rfl, rfl, rfl⟩

/-- C10 counterexample: on a context that enters routing with a non-empty
destination list and no token in metadata, the linear router fails with
`NoTokenFound` but leaves the stale destinations in place, so a failing
route does not always leave `destinations` empty. -/
theorem routers_failure_empty_counterexample :
    (TokenRouter.sync_read { metadata_key := "k" }
        { endpoints := [], metadata := [], contents := [],
          destinations := ["stale"] }).2 ≠ none ∧
    (TokenRouter.sync_read { metadata_key := "k" }
        { endpoints := [], metadata := [], contents := [],
          destinations := ["stale"] }).1.destinations ≠ [] := by
  exact ⟨by decide, by decide⟩

/-- C10 (amended): on every run, both routers leave `metadata`, `contents`
and the endpoint set unchanged — the destination list is the only field they
ever change; and on a context whose destination list starts empty (as every
pipeline-built context does), a failing route leaves `destinations` empty
afterwards. -/
theorem routers_frame_and_failure_empty (config : Config) (ctx : ReadContext) :
    ((TokenRouter.sync_read config ctx).1.metadata = ctx.metadata ∧
     (TokenRouter.sync_read config ctx).1.contents = ctx.contents ∧
     (TokenRouter.sync_read config ctx).1.endpoints = ctx.endpoints) ∧
    ((HashedTokenRouter.sync_read config ctx).1.metadata = ctx.metadata ∧
     (HashedTokenRouter.sync_read config ctx).1.contents = ctx.contents ∧
     (HashedTokenRouter.sync_read config ctx).1.endpoints = ctx.endpoints) ∧
    (ctx.destinations = [] →
      ((TokenRouter.sync_read config ctx).2 ≠ none →
        (TokenRouter.sync_read config ctx).1.destinations = []) ∧
      ((HashedTokenRouter.sync_read config ctx).2 ≠ none →
        (HashedTokenRouter.sync_read config ctx).1.destinations = [])) := by
  refine ⟨tokenRouter_frame config ctx, hashedRouter_frame config ctx, ?_⟩
  intro hde
  constructor
  · intro hfail
    cases hl : ctx.metadata.lookup config.metadata_key with
    | none => rw [tokenRouter_read_none config ctx hl]; exact hde
    | some v =>
        cases v with
        | str s =>
            rw [tokenRouter_read_not_bytes config ctx (Value.str s) hl (by intro b; simp)]
            exact hde
        | number n =>
            rw [tokenRouter_read_not_bytes config ctx (Value.number n) hl (by intro b; simp)]
            exact hde
        | bytes token =>
            by_cases hd :
              collectAddresses token ((ctx.endpoints.map EndpointSet.endpoints).flatten) = []
            · rw [tokenRouter_read_bytes_empty config ctx token hl hd]
            · rw [tokenRouter_read_bytes_nonempty config ctx token hl hd] at hfail
              exact absurd rfl hfail
  · intro hfail
    cases hl : ctx.metadata.lookup config.metadata_key with
    | none => rw [hashedRouter_read_none config ctx hl]; exact hde
    | some v =>
        cases v with
        | str s =>
            rw [hashedRouter_read_not_bytes config ctx (Value.str s) hl (by intro b; simp)]
            exact hde
        | number n =>
            rw [hashedRouter_read_not_bytes config ctx (Value.number n) hl (by intro b; simp)]
            exact hde
        | bytes token =>
            by_cases hd : HashedTokenRouter.scan token ctx.endpoints [] = []
            · rw [hashedRouter_read_bytes_empty config ctx token hl hd]
            · rw [hashedRouter_read_bytes_nonempty config ctx token hl hd] at hfail
              exact absurd rfl hfail

/-- C10 witness: on a concrete empty-destination context with no token,
both routers fail and leave the destination list empty. -/
theorem routers_frame_and_failure_empty_witness :
    (TokenRouter.sync_read { metadata_key := "k" }
        { endpoints := [], metadata := [], contents := [],
          destinations := [] }).1.destinations = [] ∧
    (HashedTokenRouter.sync_read { metadata_key := "k" }
        { endpoints := [], metadata := [], contents := [],
          destinations := [] }).1.destinations = [] :=
  ⟨((routers_frame_and_failure_empty { metadata_key := "k" }
      { endpoints := [], metadata := [], contents := [],
        destinations := [] }).2.2 rfl).1 (by decide),
   ((routers_frame_and_failure_empty { metadata_key := "k" }
      { endpoints := [], metadata := [], contents := [],
        destinations := [] }).2.2 rfl).2 (by decide)⟩

end Quilkin
